import Mathlib

/-!
Verification development for the hotelDB-server booking backend.

The repository is a sequence of iterations of one Express + MongoDB server.
The definitions below are a shallow embedding of its request handlers:

* `postBookings`, `patchBookingsId`, `deleteBookingsId`, `postJwt`,
  `deleteAdminUsersId` embed the handlers of `src/api/index.js`
  (the most mature iteration);
* `postBookingsRange`, `deleteBookingsIdLegacy` embed the handlers of
  `src/unnamed/part_001`;
* `postJwtLegacy` embeds the `POST /jwt` handler of `src/unnamed/part_000`
  and `src/unnamed/part_001`, which signs the request body and never touches
  a user collection.

Booking dates are ISO date strings in the source, compared by MongoDB's
lexicographic string order; they are modelled by an arbitrary linear order
`α` (instantiated at `Nat` in concrete evaluations).  Mongo `_id` values are
modelled as `Nat`.  A collection is a list of documents in natural
(insertion) order; `findOne` is `List.find?`, `deleteOne` removes the first
match, `updateOne` updates the first match.
-/

namespace HotelDB

/-- Outcome of the single-date booking creation handler `POST /bookings`:
status 400 "You already booked this room on this date", status 409
"Room already booked on this date", or a successful insert. -/
inductive PostOutcome where
  | duplicateUser
  | roomUnavailable
  | created
  deriving DecidableEq

/-- Outcome of the date-change handler `PATCH /bookings/:id`: status 409
"Room already booked on this date", or a committed update. -/
inductive PatchOutcome where
  | conflict
  | updated
  deriving DecidableEq

/-- Outcome of the cancellation handler `DELETE /bookings/:id`. -/
inductive DeleteOutcome where
  | notFound
  | forbidden
  | deleted
  deriving DecidableEq

/-- Outcome of the range booking handler `POST /bookings/range`: status 409
"This room is unavailable for some or all dates in your selected range.",
or a successful insert (status 201). -/
inductive RangeOutcome where
  | unavailable
  | created
  deriving DecidableEq

/-- Outcome of `DELETE /admin/users/:id`.  When `findOne` returns null the
handler dereferences `userToDelete.email`, throws, and the catch block
answers 500 without touching the collection: that is `storeError`. -/
inductive AdminDeleteOutcome where
  | selfDeleteRejected
  | deleted
  | storeError
  deriving DecidableEq

/-- A single-date booking document as inserted by `POST /bookings` in
`src/api/index.js`: the request body carries `roomId`, `email` and `date`. -/
structure Booking (α : Type) where
  id : Nat
  roomId : String
  email : String
  date : α
  deriving DecidableEq

/-- A date-range booking document as inserted by `POST /bookings/range` in
`src/unnamed/part_001` (price and display fields are dropped: no handler
reads them back for a decision). -/
structure RangeBooking (α : Type) where
  id : Nat
  roomId : String
  email : String
  checkIn : α
  checkOut : α
  deriving DecidableEq

/-- A user document as inserted by `POST /jwt` in `src/api/index.js`. -/
structure User where
  id : Nat
  email : String
  name : String
  photoURL : String
  role : String
  deriving DecidableEq

variable {α : Type} [LinearOrder α]

/-- Removal of the first document matching a predicate: MongoDB
`deleteOne`. -/
def deleteOneBy {X : Type} (p : X → Bool) : List X → List X
  | [] => []
  | x :: rest => if p x then rest else x :: deleteOneBy p rest

/-- Update of the first document with the given `_id`, setting its `date`
field: MongoDB `updateOne({_id: id}, {$set: {date}})`. -/
def setDateFirst (id : Nat) (d : α) : List (Booking α) → List (Booking α)
  | [] => []
  | b :: rest =>
      if b.id = id then { b with date := d } :: rest
      else b :: setDateFirst id d rest

/-- Handler `POST /bookings` of `src/api/index.js` (lines 558-589).
First `findOne({roomId, email, date})` answers 400, then
`findOne({roomId, date})` answers 409, otherwise the booking is inserted. -/
def postBookings (bs : List (Booking α)) (freshId : Nat) (roomId email : String)
    (d : α) : PostOutcome × List (Booking α) :=
  if bs.any (fun b => decide (b.roomId = roomId ∧ b.email = email ∧ b.date = d)) then
    (PostOutcome.duplicateUser, bs)
  else if bs.any (fun b => decide (b.roomId = roomId ∧ b.date = d)) then
    (PostOutcome.roomUnavailable, bs)
  else
    (PostOutcome.created, bs ++ [⟨freshId, roomId, email, d⟩])

/-- Handler `PATCH /bookings/:id` of `src/api/index.js` (lines 722-745) and
`src/unnamed/part_001` (lines 436-459), identical in both.  The conflict
check is `findOne({roomId: req.body.roomId, date, _id: {$ne: id}})`: the
room identifier comes from the request body, and the decoded token email
(`callerEmail`) is received but never consulted. -/
def patchBookingsId (bs : List (Booking α)) (id : Nat) (callerEmail : String)
    (bodyRoomId : String) (d : α) : PatchOutcome × List (Booking α) :=
  if bs.any (fun b => decide (b.roomId = bodyRoomId ∧ b.date = d ∧ b.id ≠ id)) then
    (PatchOutcome.conflict, bs)
  else
    (PatchOutcome.updated, setDateFirst id d bs)

/-- Handler `DELETE /bookings/:id` of `src/api/index.js` (lines 691-718):
`findOne({_id})`, 404 when absent, 403 when the stored email differs from
the decoded token email, otherwise `deleteOne({_id})`. -/
def deleteBookingsId (bs : List (Booking α)) (id : Nat) (callerEmail : String) :
    DeleteOutcome × List (Booking α) :=
  match bs.find? (fun b => decide (b.id = id)) with
  | none => (DeleteOutcome.notFound, bs)
  | some b =>
      if b.email = callerEmail then
        (DeleteOutcome.deleted, deleteOneBy (fun c => decide (c.id = id)) bs)
      else
        (DeleteOutcome.forbidden, bs)

/-- Handler `DELETE /bookings/:id` of `src/unnamed/part_001` (lines
421-433): `deleteOne({_id})` directly, 404 when `deletedCount` is 0.  The
decoded token email (`callerEmail`) is available but never compared with
the stored booking. -/
def deleteBookingsIdLegacy (bs : List (Booking α)) (id : Nat)
    (callerEmail : String) : DeleteOutcome × List (Booking α) :=
  if bs.any (fun b => decide (b.id = id)) then
    (DeleteOutcome.deleted, deleteOneBy (fun c => decide (c.id = id)) bs)
  else
    (DeleteOutcome.notFound, bs)

/-- Handler `POST /bookings/range` of `src/unnamed/part_001` (lines
303-345).  The conflict `findOne` is, for an existing document `b` of the
same room against the requested pair `checkIn`/`checkOut`:
`{checkIn: {$lt: checkOut, $gte: checkIn}}` or
`{checkOut: {$gt: checkIn, $lte: checkOut}}` or
`{checkIn: {$lte: checkIn}, checkOut: {$gte: checkOut}}`. -/
def postBookingsRange (bs : List (RangeBooking α)) (freshId : Nat)
    (roomId email : String) (checkIn checkOut : α) :
    RangeOutcome × List (RangeBooking α) :=
  if bs.any (fun b => decide (b.roomId = roomId ∧
      ((b.checkIn < checkOut ∧ checkIn ≤ b.checkIn) ∨
       (checkIn < b.checkOut ∧ b.checkOut ≤ checkOut) ∨
       (b.checkIn ≤ checkIn ∧ checkOut ≤ b.checkOut)))) then
    (RangeOutcome.unavailable, bs)
  else
    (RangeOutcome.created, bs ++ [⟨freshId, roomId, email, checkIn, checkOut⟩])

/-- Handler `POST /jwt` of `src/api/index.js` (lines 55-78): when no user
document carries the request email, one is inserted with role `"user"` and
`name`/`photoURL` defaulted to `"N/A"`; then a token is signed from the
stored document.  The returned list is the user collection afterwards. -/
def postJwt (users : List User) (freshId : Nat) (email : String)
    (name photoURL : Option String) : List User :=
  match users.find? (fun u => decide (u.email = email)) with
  | some _ => users
  | none =>
      users ++ [⟨freshId, email, name.getD "N/A", photoURL.getD "N/A", "user"⟩]

/-- Handler `POST /jwt` of `src/unnamed/part_000` (lines 42-46) and
`src/unnamed/part_001` (lines 41-45): it signs the request body as the
token and performs no database access at all, so the user collection is
returned unchanged whatever the request email. -/
def postJwtLegacy (users : List User) (email : String) : List User := users

/-- Handler `DELETE /admin/users/:id` of `src/api/index.js` (lines
439-453): `findOne({_id})`; a null result makes `.email` throw (caught as a
500); a stored email equal to the caller's decoded email answers 400
"Admin cannot delete themselves."; otherwise `deleteOne({_id})`. -/
def deleteAdminUsersId (users : List User) (id : Nat) (callerEmail : String) :
    AdminDeleteOutcome × List User :=
  match users.find? (fun u => decide (u.id = id)) with
  | none => (AdminDeleteOutcome.storeError, users)
  | some u =>
      if u.email = callerEmail then
        (AdminDeleteOutcome.selfDeleteRejected, users)
      else
        (AdminDeleteOutcome.deleted, deleteOneBy (fun v => decide (v.id = id)) users)

/-- Modelled from the spec: no handler under `src/` implements explicit
date-set booking requests (the spec's representation (c): a set of dates
sharing a group identifier).  Following the spec's words, the check walks
the requested dates in order and returns the first one lying in some
existing booked-date set of the room; `none` means the request is
accepted. -/
def dateSetFirstConflict (bookedSets : List (List α)) (requested : List α) :
    Option α :=
  requested.find? (fun d => bookedSets.any (fun s => decide (d ∈ s)))

/-- Two single-date bookings claim the same room/date slot. -/
def SameSlot (b1 b2 : Booking α) : Prop :=
  b1.roomId = b2.roomId ∧ b1.date = b2.date

instance (b1 b2 : Booking α) : Decidable (SameSlot b1 b2) := by
  unfold SameSlot; exact inferInstance

/-- The no-double-booking invariant on a single-date booking collection:
no two distinct documents claim the same (room, date) pair. -/
def NoDoubleBooking (bs : List (Booking α)) : Prop :=
  bs.Pairwise (fun b1 b2 => ¬ SameSlot b1 b2)

instance (bs : List (Booking α)) : Decidable (NoDoubleBooking bs) := by
  unfold NoDoubleBooking; exact inferInstance

/-- All `_id` values of a booking collection are distinct (MongoDB
guarantees `_id` uniqueness within a collection). -/
def UniqueIds (bs : List (Booking α)) : Prop :=
  (bs.map (fun b => b.id)).Nodup

instance (bs : List (Booking α)) : Decidable (UniqueIds bs) := by
  unfold UniqueIds; exact inferInstance

/-- Overlap of half-open intervals exactly as the spec words it: the
intervals [a1, a2) and [b1, b2) overlap iff a1 < b2 and b1 < a2. -/
def SpecOverlap (a1 a2 b1 b2 : α) : Prop := a1 < b2 ∧ b1 < a2

instance (a1 a2 b1 b2 : α) : Decidable (SpecOverlap a1 a2 b1 b2) := by
  unfold SpecOverlap; exact inferInstance

/-- The first `findOne` of `POST /bookings` decides the duplicate-by-user
rejection. -/
theorem postBookings_duplicate_iff (bs : List (Booking α)) (freshId : Nat)
    (roomId email : String) (d : α) :
    (postBookings bs freshId roomId email d).1 = PostOutcome.duplicateUser ↔
      ∃ b ∈ bs, b.roomId = roomId ∧ b.email = email ∧ b.date = d := by
  unfold postBookings
  split
  next h1 => simp_all [List.any_eq_true]
  next h1 =>
    split
    next h2 => simp_all [List.any_eq_true]
    next h2 => simp_all [List.any_eq_true]

/-- The second `findOne` of `POST /bookings` decides the room-unavailable
rejection, reached only when the duplicate check found nothing. -/
theorem postBookings_unavailable_iff (bs : List (Booking α)) (freshId : Nat)
    (roomId email : String) (d : α) :
    (postBookings bs freshId roomId email d).1 = PostOutcome.roomUnavailable ↔
      (¬ ∃ b ∈ bs, b.roomId = roomId ∧ b.email = email ∧ b.date = d) ∧
        ∃ b ∈ bs, b.roomId = roomId ∧ b.date = d := by
  unfold postBookings
  split
  next h1 => simp_all [List.any_eq_true]
  next h1 =>
    split
    next h2 => simp_all [List.any_eq_true]
    next h2 => simp_all [List.any_eq_true]

/-- `POST /bookings` inserts exactly when no booking holds the room on the
date (the duplicate triple being a special case of that). -/
theorem postBookings_created_iff (bs : List (Booking α)) (freshId : Nat)
    (roomId email : String) (d : α) :
    (postBookings bs freshId roomId email d).1 = PostOutcome.created ↔
      ¬ ∃ b ∈ bs, b.roomId = roomId ∧ b.date = d := by
  unfold postBookings
  split
  next h1 =>
    simp only [List.any_eq_true, decide_eq_true_eq] at h1
    obtain ⟨b, hb, hroom, hmail, hdate⟩ := h1
    simp only []
    constructor
    · intro hcontra; cases hcontra
    · intro hno; exact absurd ⟨b, hb, hroom, hdate⟩ hno
  next h1 =>
    split
    next h2 => simp_all [List.any_eq_true]
    next h2 => simp_all [List.any_eq_true]

/-- On either rejection `POST /bookings` leaves the collection unchanged. -/
theorem postBookings_state_of_rejected (bs : List (Booking α)) (freshId : Nat)
    (roomId email : String) (d : α)
    (h : (postBookings bs freshId roomId email d).1 ≠ PostOutcome.created) :
    (postBookings bs freshId roomId email d).2 = bs := by
  unfold postBookings at h ⊢
  by_cases h1 : (bs.any fun b =>
      decide (b.roomId = roomId ∧ b.email = email ∧ b.date = d)) = true
  · rw [if_pos h1]
  · rw [if_neg h1] at h ⊢
    by_cases h2 : (bs.any fun b => decide (b.roomId = roomId ∧ b.date = d)) = true
    · rw [if_pos h2]
    · rw [if_neg h2] at h
      exact absurd rfl h

/-- On acceptance `POST /bookings` appends exactly the requested booking. -/
theorem postBookings_state_of_created (bs : List (Booking α)) (freshId : Nat)
    (roomId email : String) (d : α)
    (h : (postBookings bs freshId roomId email d).1 = PostOutcome.created) :
    (postBookings bs freshId roomId email d).2
      = bs ++ [⟨freshId, roomId, email, d⟩] := by
  unfold postBookings at h ⊢
  by_cases h1 : (bs.any fun b =>
      decide (b.roomId = roomId ∧ b.email = email ∧ b.date = d)) = true
  · rw [if_pos h1] at h
    cases h
  · rw [if_neg h1] at h ⊢
    by_cases h2 : (bs.any fun b => decide (b.roomId = roomId ∧ b.date = d)) = true
    · rw [if_pos h2] at h
      cases h
    · rw [if_neg h2]

/-- C3: `POST /bookings` rejects with the duplicate-by-same-user error
exactly when the identical (roomId, email, date) triple exists; otherwise
it rejects with the room-unavailable error exactly when any booking holds
(roomId, date); otherwise it accepts and persists the booking; the checks
run in that order and no booking is written on rejection. -/
theorem claim_C3_post_bookings_conflict_order (bs : List (Booking α))
    (freshId : Nat) (roomId email : String) (d : α) :
    ((postBookings bs freshId roomId email d).1 = PostOutcome.duplicateUser ↔
       ∃ b ∈ bs, b.roomId = roomId ∧ b.email = email ∧ b.date = d) ∧
    ((postBookings bs freshId roomId email d).1 = PostOutcome.roomUnavailable ↔
       (¬ ∃ b ∈ bs, b.roomId = roomId ∧ b.email = email ∧ b.date = d) ∧
         ∃ b ∈ bs, b.roomId = roomId ∧ b.date = d) ∧
    ((postBookings bs freshId roomId email d).1 = PostOutcome.created ↔
       ¬ ∃ b ∈ bs, b.roomId = roomId ∧ b.date = d) ∧
    ((postBookings bs freshId roomId email d).1 ≠ PostOutcome.created →
       (postBookings bs freshId roomId email d).2 = bs) ∧
    ((postBookings bs freshId roomId email d).1 = PostOutcome.created →
       (postBookings bs freshId roomId email d).2
         = bs ++ [⟨freshId, roomId, email, d⟩]) :=
  ⟨postBookings_duplicate_iff bs freshId roomId email d,
   postBookings_unavailable_iff bs freshId roomId email d,
   postBookings_created_iff bs freshId roomId email d,
   postBookings_state_of_rejected bs freshId roomId email d,
   postBookings_state_of_created bs freshId roomId email d⟩

/-- Witness for C3 at a concrete collection over `Nat` dates: a state
holding bookings (room "A", user "u", date 1) and (room "B", user "v",
date 2) answers room-unavailable to a request by "w" for ("A", 1), and the
collection is unchanged there. -/
theorem claim_C3_witness :
    (postBookings [⟨0, "A", "u", 1⟩, ⟨1, "B", "v", 2⟩] 2 "A" "w" (1 : Nat)).1
        = PostOutcome.roomUnavailable ∧
      (postBookings [⟨0, "A", "u", 1⟩, ⟨1, "B", "v", 2⟩] 2 "A" "w" (1 : Nat)).2
        = [⟨0, "A", "u", 1⟩, ⟨1, "B", "v", 2⟩] := by
  refine ⟨?_, ?_⟩
  · exact (claim_C3_post_bookings_conflict_order
        [⟨0, "A", "u", 1⟩, ⟨1, "B", "v", 2⟩] 2 "A" "w" (1 : Nat)).2.1.mpr
      (by decide)
  · exact (claim_C3_post_bookings_conflict_order
        [⟨0, "A", "u", 1⟩, ⟨1, "B", "v", 2⟩] 2 "A" "w" (1 : Nat)).2.2.2.1
      (by decide)

/-- The single `findOne` of `PATCH /bookings/:id` decides the commit: the
update runs exactly when no booking other than the patched id holds the
request body's room on the new date. -/
theorem patchBookingsId_updated_iff (bs : List (Booking α)) (id : Nat)
    (callerEmail bodyRoomId : String) (d : α) :
    (patchBookingsId bs id callerEmail bodyRoomId d).1 = PatchOutcome.updated ↔
      ¬ ∃ b ∈ bs, b.roomId = bodyRoomId ∧ b.date = d ∧ b.id ≠ id := by
  unfold patchBookingsId
  split
  next h => simp_all [List.any_eq_true]
  next h => simp_all [List.any_eq_true]

/-- On a conflict answer `PATCH /bookings/:id` leaves the collection
unchanged. -/
theorem patchBookingsId_state_of_conflict (bs : List (Booking α)) (id : Nat)
    (callerEmail bodyRoomId : String) (d : α)
    (h : (patchBookingsId bs id callerEmail bodyRoomId d).1 = PatchOutcome.conflict) :
    (patchBookingsId bs id callerEmail bodyRoomId d).2 = bs := by
  unfold patchBookingsId at h ⊢
  by_cases h1 : (bs.any fun b =>
      decide (b.roomId = bodyRoomId ∧ b.date = d ∧ b.id ≠ id)) = true
  · rw [if_pos h1]
  · rw [if_neg h1] at h
    cases h

/-- On commit `PATCH /bookings/:id` sets the date of the first booking
carrying the patched id. -/
theorem patchBookingsId_state_of_updated (bs : List (Booking α)) (id : Nat)
    (callerEmail bodyRoomId : String) (d : α)
    (h : (patchBookingsId bs id callerEmail bodyRoomId d).1 = PatchOutcome.updated) :
    (patchBookingsId bs id callerEmail bodyRoomId d).2 = setDateFirst id d bs := by
  unfold patchBookingsId at h ⊢
  by_cases h1 : (bs.any fun b =>
      decide (b.roomId = bodyRoomId ∧ b.date = d ∧ b.id ≠ id)) = true
  · rw [if_pos h1] at h
    cases h
  · rw [if_neg h1]

/-- Membership after `setDateFirst`: every document of the updated
collection is either an untouched original or an original carrying the
patched id with its date replaced. -/
theorem mem_setDateFirst {bs : List (Booking α)} {id : Nat} {d : α}
    {c : Booking α} (hc : c ∈ setDateFirst id d bs) :
    c ∈ bs ∨ ∃ c0 ∈ bs, c0.id = id ∧ c = { c0 with date := d } := by
  induction bs with
  | nil => simp [setDateFirst] at hc
  | cons b rest ih =>
    unfold setDateFirst at hc
    by_cases hid : b.id = id
    · rw [if_pos hid] at hc
      rcases List.mem_cons.mp hc with h | h
      · exact Or.inr ⟨b, List.mem_cons_self b rest, hid, h⟩
      · exact Or.inl (List.mem_cons_of_mem b h)
    · rw [if_neg hid] at hc
      rcases List.mem_cons.mp hc with h | h
      · exact Or.inl (h ▸ List.mem_cons_self b rest)
      · rcases ih h with h2 | ⟨c0, hc0, hcid, hceq⟩
        · exact Or.inl (List.mem_cons_of_mem b h2)
        · exact Or.inr ⟨c0, List.mem_cons_of_mem b hc0, hcid, hceq⟩

/-- `deleteOneBy` yields a sublist of the original collection. -/
theorem deleteOneBy_sublist {X : Type} (p : X → Bool) (l : List X) :
    List.Sublist (deleteOneBy p l) l := by
  induction l with
  | nil => simp [deleteOneBy]
  | cons x rest ih =>
    unfold deleteOneBy
    by_cases hp : p x = true
    · rw [if_pos hp]
      exact List.sublist_cons_self x rest
    · rw [if_neg hp]
      exact List.Sublist.cons₂ x ih

/-- The no-double-booking invariant restricts to any sub-collection. -/
theorem noDoubleBooking_of_sublist {bs1 bs2 : List (Booking α)}
    (hs : List.Sublist bs1 bs2) (h : NoDoubleBooking bs2) :
    NoDoubleBooking bs1 := by
  unfold NoDoubleBooking at h ⊢
  exact h.sublist hs

/-- Core preservation argument for the date-change commit: when the ids of
the collection are distinct, the body room agrees with the stored room of
every booking carrying the patched id, and the handler's conflict scan
found nothing, setting the date keeps the no-double-booking invariant. -/
theorem noDoubleBooking_setDateFirst {bs : List (Booking α)} {id : Nat}
    {d : α} {r : String}
    (hinv : NoDoubleBooking bs) (huniq : UniqueIds bs)
    (hagree : ∀ b ∈ bs, b.id = id → b.roomId = r)
    (hcheck : ¬ ∃ b ∈ bs, b.roomId = r ∧ b.date = d ∧ b.id ≠ id) :
    NoDoubleBooking (setDateFirst id d bs) := by
  induction bs with
  | nil => exact List.Pairwise.nil
  | cons b rest ih =>
    rcases List.pairwise_cons.mp hinv with ⟨hb, hrest⟩
    have huniq2 : (rest.map fun x => x.id).Nodup :=
      (List.nodup_cons.mp huniq).2
    have hbid : b.id ∉ rest.map fun x => x.id :=
      (List.nodup_cons.mp huniq).1
    unfold setDateFirst
    by_cases hid : b.id = id
    · rw [if_pos hid]
      refine List.pairwise_cons.mpr ⟨?_, hrest⟩
      intro c hc hslot
      rcases hslot with ⟨hroom, hdate⟩
      have hcneq : c.id ≠ id := by
        intro hceq
        apply hbid
        have hcb : c.id = b.id := by rw [hceq, hid]
        rw [← hcb]
        exact List.mem_map_of_mem (fun x => x.id) hc
      have hbroom : b.roomId = r := hagree b (List.mem_cons_self b rest) hid
      exact hcheck ⟨c, List.mem_cons_of_mem b hc,
        hroom ▸ hbroom, hdate.symm, hcneq⟩
    · rw [if_neg hid]
      refine List.pairwise_cons.mpr ⟨?_, ?_⟩
      · intro c hc hslot
        rcases mem_setDateFirst hc with h | ⟨c0, hc0, hcid, hceq⟩
        · exact hb c h hslot
        · rcases hslot with ⟨hroom, hdate⟩
          have hc0room : c0.roomId = r :=
            hagree c0 (List.mem_cons_of_mem b hc0) hcid
          have hcroom : c.roomId = c0.roomId := by rw [hceq]
          have hcdate : c.date = d := by rw [hceq]
          exact hcheck ⟨b, List.mem_cons_self b rest,
            hroom.trans (hcroom.trans hc0room), hdate.trans hcdate,
            fun hbe => hid hbe⟩
      · refine ih hrest huniq2 ?_ ?_
        · intro x hx hxid
          exact hagree x (List.mem_cons_of_mem b hx) hxid
        · intro hex
          rcases hex with ⟨x, hx, hxr, hxd, hxid⟩
          exact hcheck ⟨x, List.mem_cons_of_mem b hx, hxr, hxd, hxid⟩

/-- C1 (amended): starting from a state with distinct `_id`s in which no
two active bookings claim the same (room, date), `POST /bookings` and
`DELETE /bookings/:id` always preserve the invariant, and
`PATCH /bookings/:id` preserves it provided the request body's roomId
agrees with the stored roomId of the patched booking.  (With a body roomId
different from the stored one the invariant can be broken; see the
counterexample theorem.) -/
theorem claim_C1_amended_no_double_booking_preserved (bs : List (Booking α))
    (hinv : NoDoubleBooking bs) :
    (∀ (freshId : Nat) (roomId email : String) (d : α),
        NoDoubleBooking (postBookings bs freshId roomId email d).2) ∧
    (∀ (id : Nat) (callerEmail bodyRoomId : String) (d : α),
        UniqueIds bs →
        (∀ b ∈ bs, b.id = id → b.roomId = bodyRoomId) →
        NoDoubleBooking (patchBookingsId bs id callerEmail bodyRoomId d).2) ∧
    (∀ (id : Nat) (callerEmail : String),
        NoDoubleBooking (deleteBookingsId bs id callerEmail).2) := by
  refine ⟨?_, ?_, ?_⟩
  · intro freshId roomId email d
    by_cases h : (postBookings bs freshId roomId email d).1 = PostOutcome.created
    · rw [postBookings_state_of_created bs freshId roomId email d h]
      have hno : ¬ ∃ b ∈ bs, b.roomId = roomId ∧ b.date = d :=
        (postBookings_created_iff bs freshId roomId email d).mp h
      refine List.pairwise_append.mpr ⟨hinv, List.pairwise_singleton _ _, ?_⟩
      intro a ha c hc hslot
      rcases List.mem_singleton.mp hc with rfl
      rcases hslot with ⟨hroom, hdate⟩
      exact hno ⟨a, ha, hroom, hdate⟩
    · rw [postBookings_state_of_rejected bs freshId roomId email d h]
      exact hinv
  · intro id callerEmail bodyRoomId d huniq hagree
    by_cases h : (patchBookingsId bs id callerEmail bodyRoomId d).1
        = PatchOutcome.updated
    · rw [patchBookingsId_state_of_updated bs id callerEmail bodyRoomId d h]
      exact noDoubleBooking_setDateFirst hinv huniq hagree
        ((patchBookingsId_updated_iff bs id callerEmail bodyRoomId d).mp h)
    · have hconf : (patchBookingsId bs id callerEmail bodyRoomId d).1
          = PatchOutcome.conflict := by
        rcases hp : (patchBookingsId bs id callerEmail bodyRoomId d).1
        · rfl
        · exact absurd hp h
      rw [patchBookingsId_state_of_conflict bs id callerEmail bodyRoomId d hconf]
      exact hinv
  · intro id callerEmail
    unfold deleteBookingsId
    split
    · exact hinv
    · split
      · exact noDoubleBooking_of_sublist (deleteOneBy_sublist _ bs) hinv
      · exact hinv

/-- Counterexample to C1 as stated: the state holding (room "R1", "alice",
date 7) and (room "R1", "bob", date 9) satisfies the invariant and has
distinct ids, yet a PATCH of booking 0 to date 9 whose body carries roomId
"R2" commits — the conflict scan looks at room "R2" — and afterwards both
bookings claim ("R1", 9). -/
theorem claim_C1_counterexample :
    NoDoubleBooking ([⟨0, "R1", "alice", 7⟩, ⟨1, "R1", "bob", 9⟩] :
        List (Booking Nat)) ∧
      UniqueIds ([⟨0, "R1", "alice", 7⟩, ⟨1, "R1", "bob", 9⟩] :
        List (Booking Nat)) ∧
      (patchBookingsId [⟨0, "R1", "alice", 7⟩, ⟨1, "R1", "bob", 9⟩]
          0 "alice" "R2" (9 : Nat)).1 = PatchOutcome.updated ∧
      ¬ NoDoubleBooking
          (patchBookingsId [⟨0, "R1", "alice", 7⟩, ⟨1, "R1", "bob", 9⟩]
            0 "alice" "R2" (9 : Nat)).2 := by
  decide

/-- Witness for C1 (amended) at a concrete two-booking state over `Nat`
dates: creation, a date change whose body room agrees with the stored
room, and a cancellation all preserve the invariant. -/
theorem claim_C1_witness :
    NoDoubleBooking ([⟨0, "R1", "alice", 7⟩, ⟨1, "R1", "bob", 9⟩] :
        List (Booking Nat)) ∧
      UniqueIds ([⟨0, "R1", "alice", 7⟩, ⟨1, "R1", "bob", 9⟩] :
        List (Booking Nat)) ∧
      (∀ b ∈ ([⟨0, "R1", "alice", 7⟩, ⟨1, "R1", "bob", 9⟩] :
          List (Booking Nat)), b.id = 0 → b.roomId = "R1") ∧
      NoDoubleBooking
        (postBookings [⟨0, "R1", "alice", 7⟩, ⟨1, "R1", "bob", 9⟩]
          2 "R1" "carol" (3 : Nat)).2 ∧
      NoDoubleBooking
        (patchBookingsId [⟨0, "R1", "alice", 7⟩, ⟨1, "R1", "bob", 9⟩]
          0 "alice" "R1" (3 : Nat)).2 ∧
      NoDoubleBooking
        (deleteBookingsId [⟨0, "R1", "alice", 7⟩, ⟨1, "R1", "bob", 9⟩]
          0 "alice").2 := by
  refine ⟨by decide, by decide, by decide, ?_, ?_, ?_⟩
  · exact (claim_C1_amended_no_double_booking_preserved _ (by decide)).1
      2 "R1" "carol" 3
  · exact (claim_C1_amended_no_double_booking_preserved _ (by decide)).2.1
      0 "alice" "R1" 3 (by decide) (by decide)
  · exact (claim_C1_amended_no_double_booking_preserved _ (by decide)).2.2
      0 "alice"

/-- C4 (amended): `PATCH /bookings/:id` runs a single conflict check — is
any booking other than the patched id holding (request body's roomId, new
date) — and commits the date change to the first booking with that id if
and only if the check finds nothing; it has no separate
duplicate-by-same-user stage, and the room it checks is the body's, not
the stored booking's. -/
theorem claim_C4_amended_patch_single_body_room_check
    (bs : List (Booking α)) (id : Nat) (callerEmail bodyRoomId : String)
    (d : α) :
    ((patchBookingsId bs id callerEmail bodyRoomId d).1 = PatchOutcome.updated ↔
       ¬ ∃ b ∈ bs, b.roomId = bodyRoomId ∧ b.date = d ∧ b.id ≠ id) ∧
    ((patchBookingsId bs id callerEmail bodyRoomId d).1 = PatchOutcome.updated →
       (patchBookingsId bs id callerEmail bodyRoomId d).2 = setDateFirst id d bs) ∧
    ((patchBookingsId bs id callerEmail bodyRoomId d).1 = PatchOutcome.conflict →
       (patchBookingsId bs id callerEmail bodyRoomId d).2 = bs) :=
  ⟨patchBookingsId_updated_iff bs id callerEmail bodyRoomId d,
   patchBookingsId_state_of_updated bs id callerEmail bodyRoomId d,
   patchBookingsId_state_of_conflict bs id callerEmail bodyRoomId d⟩

/-- Counterexample to C4 as stated: booking 0 lives in room "A", another
booking holds room "A" on date 2, so the claimed conflict check against
the room of the booking being modified would reject the change to date 2;
but with a request body carrying roomId "B" the handler scans room "B",
finds nothing, and commits. -/
theorem claim_C4_counterexample :
    (([⟨0, "A", "u", 1⟩, ⟨1, "A", "v", 2⟩] : List (Booking Nat)).find?
        (fun b => decide (b.id = 0)) = some ⟨0, "A", "u", 1⟩) ∧
      (∃ b ∈ ([⟨0, "A", "u", 1⟩, ⟨1, "A", "v", 2⟩] : List (Booking Nat)),
        b.roomId = "A" ∧ b.date = 2 ∧ b.id ≠ 0) ∧
      (patchBookingsId [⟨0, "A", "u", 1⟩, ⟨1, "A", "v", 2⟩]
          0 "u" "B" (2 : Nat)).1 = PatchOutcome.updated ∧
      (patchBookingsId [⟨0, "A", "u", 1⟩, ⟨1, "A", "v", 2⟩]
          0 "u" "B" (2 : Nat)).2 = [⟨0, "A", "u", 2⟩, ⟨1, "A", "v", 2⟩] := by
  decide

/-- Witness for C4 (amended) at a concrete state: with bookings
("A", "u", 1) and ("A", "v", 2), patching booking 0 to date 2 with body
roomId "A" hits the check and leaves the collection unchanged. -/
theorem claim_C4_witness :
    ¬ ((patchBookingsId [⟨0, "A", "u", 1⟩, ⟨1, "A", "v", 2⟩]
          0 "u" "A" (2 : Nat)).1 = PatchOutcome.updated) ∧
      (patchBookingsId [⟨0, "A", "u", 1⟩, ⟨1, "A", "v", 2⟩]
          0 "u" "A" (2 : Nat)).2 = [⟨0, "A", "u", 1⟩, ⟨1, "A", "v", 2⟩] := by
  refine ⟨?_, ?_⟩
  · intro h
    exact (claim_C4_amended_patch_single_body_room_check
        [⟨0, "A", "u", 1⟩, ⟨1, "A", "v", 2⟩] 0 "u" "A" (2 : Nat)).1.mp h
      (by decide)
  · exact (claim_C4_amended_patch_single_body_room_check
        [⟨0, "A", "u", 1⟩, ⟨1, "A", "v", 2⟩] 0 "u" "A" (2 : Nat)).2.2
      (by decide)

/-- C10: the outcome of `PATCH /bookings/:id` is the same whatever email
the verified token carries — the handler never consults it — while the
conflict check uses the roomId of the request body, so two requests
differing only in the body's roomId can yield different accept/reject
outcomes for the same stored booking (here booking 0, date 5: body room
"A" commits, body room "B" conflicts). -/
theorem claim_C10_patch_ignores_token_email_uses_body_room :
    (∀ (α : Type) [LinearOrder α] (bs : List (Booking α)) (id : Nat)
        (email1 email2 bodyRoomId : String) (d : α),
        patchBookingsId bs id email1 bodyRoomId d
          = patchBookingsId bs id email2 bodyRoomId d) ∧
      (patchBookingsId [⟨0, "A", "u", 1⟩, ⟨1, "B", "v", 5⟩]
          0 "any@x" "A" (5 : Nat)).1 = PatchOutcome.updated ∧
      (patchBookingsId [⟨0, "A", "u", 1⟩, ⟨1, "B", "v", 5⟩]
          0 "any@x" "B" (5 : Nat)).1 = PatchOutcome.conflict := by
  refine ⟨?_, by decide, by decide⟩
  intro α _ bs id email1 email2 bodyRoomId d
  rfl

/-- The `findOne` of `POST /bookings/range` decides the rejection, with
the three-disjunct room/interval condition of the Mongo query. -/
theorem postBookingsRange_unavailable_iff (bs : List (RangeBooking α))
    (freshId : Nat) (roomId email : String) (cin cout : α) :
    (postBookingsRange bs freshId roomId email cin cout).1
        = RangeOutcome.unavailable ↔
      ∃ b ∈ bs, b.roomId = roomId ∧
        ((b.checkIn < cout ∧ cin ≤ b.checkIn) ∨
         (cin < b.checkOut ∧ b.checkOut ≤ cout) ∨
         (b.checkIn ≤ cin ∧ cout ≤ b.checkOut)) := by
  unfold postBookingsRange
  split
  next h => simp_all [List.any_eq_true]
  next h => simp_all [List.any_eq_true]

/-- On rejection `POST /bookings/range` leaves the collection unchanged. -/
theorem postBookingsRange_state_of_unavailable (bs : List (RangeBooking α))
    (freshId : Nat) (roomId email : String) (cin cout : α)
    (h : (postBookingsRange bs freshId roomId email cin cout).1
        = RangeOutcome.unavailable) :
    (postBookingsRange bs freshId roomId email cin cout).2 = bs := by
  unfold postBookingsRange at h ⊢
  by_cases h1 : (bs.any fun b => decide (b.roomId = roomId ∧
      ((b.checkIn < cout ∧ cin ≤ b.checkIn) ∨
       (cin < b.checkOut ∧ b.checkOut ≤ cout) ∨
       (b.checkIn ≤ cin ∧ cout ≤ b.checkOut)))) = true
  · rw [if_pos h1]
  · rw [if_neg h1] at h
    cases h

/-- On acceptance `POST /bookings/range` appends exactly the request's
interval, with no validation of the pair. -/
theorem postBookingsRange_state_of_created (bs : List (RangeBooking α))
    (freshId : Nat) (roomId email : String) (cin cout : α)
    (h : (postBookingsRange bs freshId roomId email cin cout).1
        = RangeOutcome.created) :
    (postBookingsRange bs freshId roomId email cin cout).2
      = bs ++ [⟨freshId, roomId, email, cin, cout⟩] := by
  unfold postBookingsRange at h ⊢
  by_cases h1 : (bs.any fun b => decide (b.roomId = roomId ∧
      ((b.checkIn < cout ∧ cin ≤ b.checkIn) ∨
       (cin < b.checkOut ∧ b.checkOut ≤ cout) ∨
       (b.checkIn ≤ cin ∧ cout ≤ b.checkOut)))) = true
  · rw [if_pos h1] at h
    cases h
  · rw [if_neg h1]

/-- For a well-formed existing interval [a1, a2) and a well-formed
requested interval [b1, b2), the handler's three-disjunct Mongo condition
coincides with the spec's half-open overlap test. -/
theorem rangeCheck_iff_specOverlap {a1 a2 b1 b2 : α}
    (ha : a1 < a2) (hb : b1 < b2) :
    ((a1 < b2 ∧ b1 ≤ a1) ∨ (b1 < a2 ∧ a2 ≤ b2) ∨ (a1 ≤ b1 ∧ b2 ≤ a2)) ↔
      SpecOverlap a1 a2 b1 b2 := by
  unfold SpecOverlap
  constructor
  · rintro (⟨h1, h2⟩ | ⟨h1, h2⟩ | ⟨h1, h2⟩)
    · exact ⟨h1, lt_of_le_of_lt h2 ha⟩
    · exact ⟨lt_of_lt_of_le ha h2, h1⟩
    · exact ⟨lt_of_le_of_lt h1 hb, lt_of_lt_of_le hb h2⟩
  · rintro ⟨h1, h2⟩
    rcases le_or_lt b1 a1 with h3 | h3
    · exact Or.inl ⟨h1, h3⟩
    · rcases le_or_lt a2 b2 with h4 | h4
      · exact Or.inr (Or.inl ⟨h2, h4⟩)
      · exact Or.inr (Or.inr ⟨le_of_lt h3, le_of_lt h4⟩)

/-- C2 (amended): for existing range bookings with well-formed intervals
and a well-formed request interval [b1, b2), `POST /bookings/range`
rejects exactly when some existing interval [a1, a2) of the room satisfies
a1 < b2 and b1 < a2; in particular an exactly adjacent request is
accepted.  (For a malformed request with b2 ≤ b1 the handler can reject
although no existing interval passes that overlap test; see the
counterexample theorem.) -/
theorem claim_C2_amended_range_reject_iff_overlap (bs : List (RangeBooking α))
    (freshId : Nat) (roomId email : String) (b1 b2 : α)
    (hwf : ∀ b ∈ bs, b.checkIn < b.checkOut) (hreq : b1 < b2) :
    (postBookingsRange bs freshId roomId email b1 b2).1
        = RangeOutcome.unavailable ↔
      ∃ b ∈ bs, b.roomId = roomId
        ∧ SpecOverlap b.checkIn b.checkOut b1 b2 := by
  rw [postBookingsRange_unavailable_iff]
  constructor
  · rintro ⟨b, hb, hroom, hdisj⟩
    exact ⟨b, hb, hroom, (rangeCheck_iff_specOverlap (hwf b hb) hreq).mp hdisj⟩
  · rintro ⟨b, hb, hroom, hov⟩
    exact ⟨b, hb, hroom, (rangeCheck_iff_specOverlap (hwf b hb) hreq).mpr hov⟩

/-- Counterexample to C2 as stated: the claim quantifies over every
request interval.  Against the well-formed existing booking [4, 6) for
room "r", the malformed request [5, 3) satisfies the spec's overlap test
for no existing interval (4 < 3 fails), yet the handler's third disjunct
(4 ≤ 5 and 6 ≥ 3) fires and the request is rejected. -/
theorem claim_C2_counterexample :
    (∀ b ∈ ([⟨0, "r", "e", 4, 6⟩] : List (RangeBooking Nat)),
        b.checkIn < b.checkOut) ∧
      (postBookingsRange [⟨0, "r", "e", 4, 6⟩] 1 "r" "f" (5 : Nat) 3).1
        = RangeOutcome.unavailable ∧
      ¬ ∃ b ∈ ([⟨0, "r", "e", 4, 6⟩] : List (RangeBooking Nat)),
          b.roomId = "r" ∧ SpecOverlap b.checkIn b.checkOut 5 3 := by
  decide

/-- Witness for C2 (amended) over `Nat` dates with existing booking
[1, 5) in room "r": the adjacent request [5, 8) is accepted and the
overlapping request [4, 6) is rejected. -/
theorem claim_C2_witness :
    (∀ b ∈ ([⟨0, "r", "e", 1, 5⟩] : List (RangeBooking Nat)),
        b.checkIn < b.checkOut) ∧
      (5 : Nat) < 8 ∧
      ¬ ((postBookingsRange [⟨0, "r", "e", 1, 5⟩] 1 "r" "f" (5 : Nat) 8).1
          = RangeOutcome.unavailable) ∧
      (postBookingsRange [⟨0, "r", "e", 1, 5⟩] 1 "r" "f" (4 : Nat) 6).1
        = RangeOutcome.unavailable := by
  refine ⟨by decide, by decide, ?_, ?_⟩
  · intro h
    exact absurd ((claim_C2_amended_range_reject_iff_overlap
        [⟨0, "r", "e", 1, 5⟩] 1 "r" "f" (5 : Nat) 8
        (by decide) (by decide)).mp h) (by decide)
  · exact (claim_C2_amended_range_reject_iff_overlap
        [⟨0, "r", "e", 1, 5⟩] 1 "r" "f" (4 : Nat) 6
        (by decide) (by decide)).mpr (by decide)

/-- C9 (amended): `POST /bookings/range` persists the request's
checkIn/checkOut verbatim and performs no well-formedness validation of
its own, so every booking it adds is well-formed precisely when the
request interval is: under checkIn < checkOut every document of the
resulting collection is an original or well-formed.  (A malformed request
can be committed; see the counterexample theorem.) -/
theorem claim_C9_amended_range_wellformed_iff_request
    (bs : List (RangeBooking α)) (freshId : Nat) (roomId email : String)
    (cin cout : α) :
    ((postBookingsRange bs freshId roomId email cin cout).1
        = RangeOutcome.created →
      (postBookingsRange bs freshId roomId email cin cout).2
        = bs ++ [⟨freshId, roomId, email, cin, cout⟩]) ∧
    ((postBookingsRange bs freshId roomId email cin cout).1
        = RangeOutcome.unavailable →
      (postBookingsRange bs freshId roomId email cin cout).2 = bs) ∧
    (cin < cout →
      ∀ b ∈ (postBookingsRange bs freshId roomId email cin cout).2,
        b ∈ bs ∨ b.checkIn < b.checkOut) := by
  refine ⟨postBookingsRange_state_of_created bs freshId roomId email cin cout,
    postBookingsRange_state_of_unavailable bs freshId roomId email cin cout,
    ?_⟩
  intro hwf b hb
  by_cases h : (postBookingsRange bs freshId roomId email cin cout).1
      = RangeOutcome.created
  · rw [postBookingsRange_state_of_created bs freshId roomId email cin cout h]
      at hb
    rcases List.mem_append.mp hb with h2 | h2
    · exact Or.inl h2
    · rcases List.mem_singleton.mp h2 with rfl
      exact Or.inr hwf
  · have hu : (postBookingsRange bs freshId roomId email cin cout).1
        = RangeOutcome.unavailable := by
      rcases hp : (postBookingsRange bs freshId roomId email cin cout).1
      · rfl
      · exact absurd hp h
    rw [postBookingsRange_state_of_unavailable bs freshId roomId email
        cin cout hu] at hb
    exact Or.inl hb

/-- Counterexample to C9 as stated: against an empty booking collection
the conflict scan finds nothing, so the malformed request [5, 3) for room
"r" is committed although its checkIn is not before its checkOut. -/
theorem claim_C9_counterexample :
    (postBookingsRange ([] : List (RangeBooking Nat)) 0 "r" "e" 5 3).1
        = RangeOutcome.created ∧
      (postBookingsRange ([] : List (RangeBooking Nat)) 0 "r" "e" 5 3).2
        = [⟨0, "r", "e", 5, 3⟩] ∧
      ¬ ((5 : Nat) < 3) := by
  decide

/-- Witness for C9 (amended): the well-formed request [2, 4) into an
empty collection is committed verbatim and every resulting document is
original or well-formed. -/
theorem claim_C9_witness :
    (postBookingsRange ([] : List (RangeBooking Nat)) 0 "r" "e" 2 4).2
        = [⟨0, "r", "e", 2, 4⟩] ∧
      ∀ b ∈ (postBookingsRange ([] : List (RangeBooking Nat)) 0 "r" "e" 2 4).2,
        b ∈ ([] : List (RangeBooking Nat)) ∨ b.checkIn < b.checkOut := by
  refine ⟨?_, ?_⟩
  · exact (claim_C9_amended_range_wellformed_iff_request
        ([] : List (RangeBooking Nat)) 0 "r" "e" 2 4).1 (by decide)
  · exact (claim_C9_amended_range_wellformed_iff_request
        ([] : List (RangeBooking Nat)) 0 "r" "e" 2 4).2.2 (by decide)

/-- C6 (amended): the `DELETE /bookings/:id` handler of `src/api/index.js`
deletes only when the stored booking's email equals the verified token's
email, answers forbidden with the collection unchanged when they differ,
and changes nothing whenever it does not delete.  (The earlier handler in
`src/unnamed/part_001` deletes without any ownership comparison; see the
counterexample theorem.) -/
theorem claim_C6_amended_delete_requires_ownership_api
    (bs : List (Booking α)) (id : Nat) (caller : String) :
    ((deleteBookingsId bs id caller).1 = DeleteOutcome.deleted →
       ∃ b, bs.find? (fun v => decide (v.id = id)) = some b ∧
         b.email = caller ∧
         (deleteBookingsId bs id caller).2
           = deleteOneBy (fun c => decide (c.id = id)) bs) ∧
    ((deleteBookingsId bs id caller).1 ≠ DeleteOutcome.deleted →
       (deleteBookingsId bs id caller).2 = bs) ∧
    (∀ b, bs.find? (fun v => decide (v.id = id)) = some b →
       b.email ≠ caller →
       (deleteBookingsId bs id caller).1 = DeleteOutcome.forbidden ∧
         (deleteBookingsId bs id caller).2 = bs) := by
  unfold deleteBookingsId
  split
  next hf =>
    refine ⟨?_, ?_, ?_⟩
    · intro h
      cases h
    · intro _
      rfl
    · intro b hb
      rw [hf] at hb
      cases hb
  next b hf =>
    by_cases hmail : b.email = caller
    · rw [if_pos hmail]
      refine ⟨?_, ?_, ?_⟩
      · intro _
        exact ⟨b, hf, hmail, rfl⟩
      · intro h
        exact absurd rfl h
      · intro b2 hb2 hne
        rw [hf] at hb2
        injection hb2 with hb3
        exact absurd (hb3 ▸ hmail) hne
    · rw [if_neg hmail]
      refine ⟨?_, ?_, ?_⟩
      · intro h
        cases h
      · intro _
        rfl
      · intro b2 hb2 hne
        exact ⟨rfl, rfl⟩

/-- Counterexample to C6 as stated: the `DELETE /bookings/:id` handler of
`src/unnamed/part_001` (one of the claim's cited sources) deletes the
stored booking of "owner@x" for a caller whose verified token email is
"attacker@x": the deletion is not restricted to the owner. -/
theorem claim_C6_counterexample :
    (deleteBookingsIdLegacy [⟨0, "A", "owner@x", 1⟩] 0 "attacker@x").1
        = DeleteOutcome.deleted ∧
      (deleteBookingsIdLegacy [⟨0, "A", "owner@x", 1⟩] 0 "attacker@x").2
        = ([] : List (Booking Nat)) ∧
      "owner@x" ≠ "attacker@x" := by
  decide

/-- Witness for C6 (amended) at a concrete one-booking state: a caller
other than the owner is answered forbidden and the collection is kept. -/
theorem claim_C6_witness :
    (deleteBookingsId [⟨0, "A", "owner@x", 1⟩] 0 "other@x").1
        = DeleteOutcome.forbidden ∧
      (deleteBookingsId [⟨0, "A", "owner@x", 1⟩] 0 "other@x").2
        = ([⟨0, "A", "owner@x", 1⟩] : List (Booking Nat)) := by
  exact (claim_C6_amended_delete_requires_ownership_api
      [⟨0, "A", "owner@x", 1⟩] 0 "other@x").2.2
    ⟨0, "A", "owner@x", 1⟩ (by decide) (by decide)

/-- C7 (amended): the `POST /jwt` handler of `src/api/index.js` creates,
for an email matching no user record, exactly one new record with role
"user" (name and photo defaulted to "N/A" when absent), and for an email
that already has a record it leaves the user collection — in particular
the stored role — unchanged.  (The `/jwt` handlers of
`src/unnamed/part_000` and `src/unnamed/part_001`, also cited by the
claim, never create a user record; see the counterexample theorem.) -/
theorem claim_C7_amended_jwt_lazy_user_creation_api (users : List User)
    (freshId : Nat) (email : String) (name photoURL : Option String) :
    ((¬ ∃ u ∈ users, u.email = email) →
       postJwt users freshId email name photoURL
         = users ++
           [⟨freshId, email, name.getD "N/A", photoURL.getD "N/A", "user"⟩]) ∧
    ((∃ u ∈ users, u.email = email) →
       postJwt users freshId email name photoURL = users) := by
  unfold postJwt
  split
  next u hf =>
    refine ⟨?_, ?_⟩
    · intro hno
      exfalso
      refine hno ⟨u, List.mem_of_find?_eq_some hf, ?_⟩
      simpa using List.find?_some hf
    · intro _
      rfl
  next hf =>
    refine ⟨?_, ?_⟩
    · intro _
      rfl
    · intro hex
      exfalso
      rcases hex with ⟨u, hu, he⟩
      have hne := List.find?_eq_none.mp hf u hu
      simp only [decide_eq_true_eq] at hne
      exact hne he

/-- Counterexample to C7 as stated: the `POST /jwt` handler of
`src/unnamed/part_000` (one of the claim's cited sources) signs the
request body and performs no store access, so a request for the unseen
email "new@x" creates no user record at all, rather than exactly one. -/
theorem claim_C7_counterexample :
    postJwtLegacy ([] : List User) "new@x" = ([] : List User) ∧
      ¬ ∃ u ∈ postJwtLegacy ([] : List User) "new@x",
          u.email = "new@x" ∧ u.role = "user" := by
  decide

/-- Witness for C7 (amended): against a store holding only the admin
"a@x", a token request for the unseen "b@x" appends exactly one record
with role "user", and a second request for "a@x" changes nothing. -/
theorem claim_C7_witness :
    postJwt [⟨0, "a@x", "A", "P", "admin"⟩] 1 "b@x" (some "B") none
        = [⟨0, "a@x", "A", "P", "admin"⟩, ⟨1, "b@x", "B", "N/A", "user"⟩] ∧
      postJwt [⟨0, "a@x", "A", "P", "admin"⟩] 2 "a@x" none none
        = [⟨0, "a@x", "A", "P", "admin"⟩] := by
  refine ⟨?_, ?_⟩
  · exact (claim_C7_amended_jwt_lazy_user_creation_api
        [⟨0, "a@x", "A", "P", "admin"⟩] 1 "b@x" (some "B") none).1 (by decide)
  · exact (claim_C7_amended_jwt_lazy_user_creation_api
        [⟨0, "a@x", "A", "P", "admin"⟩] 2 "a@x" none none).2 (by decide)

/-- C8: `DELETE /admin/users/:id` rejects the request and deletes nothing
when the user record found by id carries the caller's own email, and any
deletion it performs removes a record whose email differs from the
caller's; whenever it does not delete, the user collection is unchanged. -/
theorem claim_C8_admin_cannot_self_delete (users : List User) (id : Nat)
    (caller : String) :
    ((∃ u, users.find? (fun v => decide (v.id = id)) = some u ∧
        u.email = caller) →
       (deleteAdminUsersId users id caller).1
           = AdminDeleteOutcome.selfDeleteRejected ∧
         (deleteAdminUsersId users id caller).2 = users) ∧
    ((deleteAdminUsersId users id caller).1 = AdminDeleteOutcome.deleted →
       ∃ u, users.find? (fun v => decide (v.id = id)) = some u ∧
         u.email ≠ caller ∧
         (deleteAdminUsersId users id caller).2
           = deleteOneBy (fun v => decide (v.id = id)) users) ∧
    ((deleteAdminUsersId users id caller).1 ≠ AdminDeleteOutcome.deleted →
       (deleteAdminUsersId users id caller).2 = users) := by
  unfold deleteAdminUsersId
  split
  next hf =>
    refine ⟨?_, ?_, ?_⟩
    · intro hex
      rcases hex with ⟨u, hu, _⟩
      rw [hf] at hu
      cases hu
    · intro h
      cases h
    · intro _
      rfl
  next u hf =>
    by_cases hmail : u.email = caller
    · rw [if_pos hmail]
      refine ⟨?_, ?_, ?_⟩
      · intro _
        exact ⟨rfl, rfl⟩
      · intro h
        cases h
      · intro _
        rfl
    · rw [if_neg hmail]
      refine ⟨?_, ?_, ?_⟩
      · intro hex
        rcases hex with ⟨u2, hu2, he2⟩
        rw [hf] at hu2
        injection hu2 with hu3
        exact absurd (hu3 ▸ he2) hmail
      · intro _
        exact ⟨u, hf, hmail, rfl⟩
      · intro h
        exact absurd rfl h

/-- Witness for C8 at a concrete store: the admin "root@x" asking to
delete the record that carries their own email is rejected with the store
unchanged, while deleting the other record succeeds and removes a record
with a different email. -/
theorem claim_C8_witness :
    ((deleteAdminUsersId [⟨0, "root@x", "R", "P", "admin"⟩,
          ⟨1, "u@x", "U", "P", "user"⟩] 0 "root@x").1
        = AdminDeleteOutcome.selfDeleteRejected ∧
      (deleteAdminUsersId [⟨0, "root@x", "R", "P", "admin"⟩,
          ⟨1, "u@x", "U", "P", "user"⟩] 0 "root@x").2
        = [⟨0, "root@x", "R", "P", "admin"⟩, ⟨1, "u@x", "U", "P", "user"⟩]) ∧
      ∃ u, ([⟨0, "root@x", "R", "P", "admin"⟩,
          ⟨1, "u@x", "U", "P", "user"⟩] : List User).find?
            (fun v => decide (v.id = 1)) = some u ∧
        u.email ≠ "root@x" ∧
        (deleteAdminUsersId [⟨0, "root@x", "R", "P", "admin"⟩,
            ⟨1, "u@x", "U", "P", "user"⟩] 1 "root@x").2
          = deleteOneBy (fun v => decide (v.id = 1))
              [⟨0, "root@x", "R", "P", "admin"⟩, ⟨1, "u@x", "U", "P", "user"⟩] := by
  refine ⟨?_, ?_⟩
  · exact (claim_C8_admin_cannot_self_delete
        [⟨0, "root@x", "R", "P", "admin"⟩, ⟨1, "u@x", "U", "P", "user"⟩]
        0 "root@x").1 ⟨⟨0, "root@x", "R", "P", "admin"⟩, by decide, by decide⟩
  · exact (claim_C8_admin_cannot_self_delete
        [⟨0, "root@x", "R", "P", "admin"⟩, ⟨1, "u@x", "U", "P", "user"⟩]
        1 "root@x").2.1 (by decide)

/-- Decomposition of a successful `find?`: the found element splits the
list, satisfies the predicate, and everything before it fails it. -/
theorem find?_eq_some_split {X : Type} {p : X → Bool} {l : List X} {d : X}
    (h : l.find? p = some d) :
    ∃ l1 l2, l = l1 ++ d :: l2 ∧ p d = true ∧ ∀ e ∈ l1, ¬ p e = true := by
  induction l with
  | nil => cases h
  | cons x rest ih =>
    by_cases hp : p x = true
    · rw [List.find?_cons_of_pos _ hp] at h
      injection h with h2
      subst h2
      exact ⟨[], rest, rfl, hp, by simp⟩
    · rw [List.find?_cons_of_neg _ (by simpa using hp)] at h
      rcases ih h with ⟨l1, l2, heq, hpd, hall⟩
      refine ⟨x :: l1, l2, by rw [heq, List.cons_append], hpd, ?_⟩
      intro e he
      rcases List.mem_cons.mp he with rfl | he2
      · exact hp
      · exact hall e he2

/-- C5 (spec-modelled): an explicit date-set request is rejected exactly
when its intersection with the union of the room's existing booked-date
sets is non-empty, and the reported date is the first requested date that
conflicts: it splits the request list, lies in some existing set, and no
earlier requested date lies in any existing set. -/
theorem claim_C5_dateset_reject_iff_intersection
    (bookedSets : List (List α)) (requested : List α) :
    ((dateSetFirstConflict bookedSets requested).isSome ↔
       ∃ d ∈ requested, ∃ s ∈ bookedSets, d ∈ s) ∧
    (∀ d, dateSetFirstConflict bookedSets requested = some d →
       ∃ l1 l2, requested = l1 ++ d :: l2 ∧
         (∃ s ∈ bookedSets, d ∈ s) ∧
         ∀ e ∈ l1, ¬ ∃ s ∈ bookedSets, e ∈ s) := by
  refine ⟨?_, ?_⟩
  · unfold dateSetFirstConflict
    simp [List.find?_isSome, List.any_eq_true]
  · intro d hd
    unfold dateSetFirstConflict at hd
    rcases find?_eq_some_split hd with ⟨l1, l2, heq, hpd, hall⟩
    refine ⟨l1, l2, heq, ?_, ?_⟩
    · simpa [List.any_eq_true] using hpd
    · intro e he
      have := hall e he
      simpa [List.any_eq_true] using this

/-- Witness for C5 over `Nat` dates: with booked sets [1, 2] and [5],
the request [3, 5, 1] is rejected and 5 is reported: 3 conflicts with
nothing and 5 is booked. -/
theorem claim_C5_witness :
    (dateSetFirstConflict [[1, 2], [5]] [3, 5, 1] : Option Nat).isSome ∧
      ∃ l1 l2, ([3, 5, 1] : List Nat) = l1 ++ 5 :: l2 ∧
        (∃ s ∈ ([[1, 2], [5]] : List (List Nat)), (5 : Nat) ∈ s) ∧
        ∀ e ∈ l1, ¬ ∃ s ∈ ([[1, 2], [5]] : List (List Nat)), e ∈ s := by
  refine ⟨?_, ?_⟩
  · exact (claim_C5_dateset_reject_iff_intersection
        [[1, 2], [5]] [3, 5, 1]).1.mpr (by decide)
  · exact (claim_C5_dateset_reject_iff_intersection
        [[1, 2], [5]] [3, 5, 1]).2 5 (by decide)

end HotelDB
